import Mathlib

/-!
Verification development for the server-side transaction-log and bundling
engine in `src/server/db.js`.

The JavaScript source is shallowly embedded as pure Lean functions over an
explicit `ServerState`.  Durable-store calls (DynamoDB) and blob-store calls
(S3) are external collaborators; their conditional-write contracts are
modelled as explicit map updates on `ServerState`, and their non-conditional
failures are injected through `Option JsError` oracle parameters (`none`
means the call reaches the store and succeeds unless its condition
expression fails; `some e` means the call fails with error `e` before any
state change).  JavaScript values relevant to the validation code paths
(truthiness tests, `Number(...)` coercion, template-literal stringification)
are modelled by the inductive `JsValue`; numeric strings are restricted to
integer-denoting ones, which covers every value the claims quantify over.
-/

/-- Model of a JavaScript runtime value as far as the validation logic of
`db.js` observes it: `undefined`, `null`, booleans, integer numbers, `NaN`
and strings. -/
inductive JsValue where
  | undef
  | null
  | boolV (b : Bool)
  | numV (i : Int)
  | nanV
  | strV (s : String)
deriving Repr, DecidableEq

/-- JavaScript truthiness: `undefined`, `null`, `false`, `0`, `NaN` and the
empty string are falsy, everything else is truthy. -/
def truthy : JsValue → Bool
  | JsValue.undef => false
  | JsValue.null => false
  | JsValue.boolV b => b
  | JsValue.numV i => i != 0
  | JsValue.nanV => false
  | JsValue.strV s => !s.isEmpty

/-- JavaScript `Number(...)` coercion, with `none` standing for `NaN`:
`undefined` coerces to `NaN`, `null` to `0`, booleans to `0`/`1`, the empty
string to `0`, and other strings to the integer they denote (`none` when
they denote no integer). -/
def toNumber : JsValue → Option Int
  | JsValue.undef => none
  | JsValue.null => some 0
  | JsValue.boolV b => some (if b then 1 else 0)
  | JsValue.numV i => some i
  | JsValue.nanV => none
  | JsValue.strV s => if s.isEmpty then some 0 else s.toInt?

/-- JavaScript template-literal stringification of a value. -/
def jsToString : JsValue → String
  | JsValue.undef => ("undefined")
  | JsValue.null => ("null")
  | JsValue.boolV b => if b then ("true") else ("false")
  | JsValue.numV i => toString i
  | JsValue.nanV => ("NaN")
  | JsValue.strV s => s

/-- JavaScript comparison `l >= n` where `l` may be `undefined` (`none`):
any ordering comparison against `undefined` is false. -/
def jsGe : Option Int → Int → Bool
  | none, _ => false
  | some l, n => n ≤ l

/-- An error thrown by a collaborator call, as far as `db.js` inspects it:
a `name`, a `message` and an optional transport `statusCode`. -/
structure JsError where
  name : String
  message : String
  statusCode : Option Nat
deriving Repr, DecidableEq

/-- Stringification of a thrown error as it appears inside a template
literal. -/
def errToString (e : JsError) : String :=
  e.name ++ (": ") ++ e.message

/-- Matching of a leading run of characters, helper for `strIncludes`. -/
def leadMatch : List Char → List Char → Bool
  | _, [] => true
  | [], _ :: _ => false
  | a :: as, b :: bs => a == b && leadMatch as bs

/-- Helper for `strIncludes` over character lists. -/
def hasSubList : List Char → List Char → Bool
  | [], sub => sub.isEmpty
  | a :: as, sub => leadMatch (a :: as) sub || hasSubList as sub

/-- JavaScript `s.includes(sub)`: substring containment. -/
def strIncludes (s sub : String) : Bool :=
  hasSubList s.toList sub.toList

/-- Modelled from the spec: `statusCodes.js` is not under `src/`.  Section 6
maps the four error classes bad-request, not-found, conflict and
internal-error to transport-level statuses. -/
def statusCodes (s : String) : Nat :=
  if s = ("Bad Request") then 400
  else if s = ("Not Found") then 404
  else if s = ("Conflict") then 409
  else 500

/-- Body of a success response: a message string, a sequence number, raw
bundle bytes, or an empty object. -/
inductive RespBody where
  | msg (s : String)
  | seqNum (n : Nat)
  | blob (b : String)
  | emptyObj
deriving Repr, DecidableEq

/-- Uniform success/error envelope returned by every entry point. -/
inductive Response where
  | success (body : RespBody)
  | error (status : Nat) (message : String)
deriving Repr, DecidableEq

/-- Modelled from the spec: `responseBuilder.js` is not under `src/`.
Section 6 specifies a typed error envelope carrying a status and message. -/
def errorResponse (status : Nat) (message : String) : Response :=
  Response.error status message

/-- Modelled from the spec: `responseBuilder.js` is not under `src/`.
Section 6 specifies a success envelope carrying a payload. -/
def successResponse (body : RespBody) : Response :=
  Response.success body

/-- A `Database` item of the database-by-id table: key attribute
`database-id` plus owner, encrypted name, metadata, and the optional
`bundle-seq-no` attribute (absent until the first successful bundling). -/
structure DatabaseItem where
  databaseId : JsValue
  ownerId : JsValue
  databaseName : JsValue
  metadata : JsValue
  bundleSeqNo : Option Int
deriving Repr, DecidableEq

/-- A `UserDatabase` item of the database-by-user table, keyed by
(user-id, database-name-hash). -/
structure UserDatabaseItem where
  userId : JsValue
  databaseNameHash : JsValue
  databaseId : JsValue
  encryptedDbKey : JsValue
deriving Repr, DecidableEq

/-- One sub-operation of a batch transaction, after validation. -/
structure BatchOp where
  key : JsValue
  record : JsValue
  command : JsValue
deriving Repr, DecidableEq

/-- One raw sub-operation as submitted to `batch`, before validation. -/
structure OpInput where
  itemKey : JsValue
  encryptedItem : JsValue
  command : JsValue
deriving Repr, DecidableEq

/-- A transaction item as stored in the transactions table, keyed by
(database-id, sequence-no).  Single-key commands carry `key`/`record`,
batches carry `operations`, rollback markers carry `command = "rollback"`. -/
structure TxItem where
  databaseId : JsValue
  seqNo : Nat
  key : JsValue
  record : JsValue
  command : String
  operations : Option (List BatchOp)
  itemId : JsValue
deriving Repr, DecidableEq

/-- Durability status of a recently assigned sequence number, held only in
the process-local Sequencer. -/
inductive TxStatus where
  | assigned
  | persisted
  | rolledBack
deriving Repr, DecidableEq

/-- The whole observable state: the three DynamoDB tables, the S3 bucket of
database snapshots, and the process-local Sequencer (memcache) state. -/
structure ServerState where
  databaseTable : JsValue → Option DatabaseItem
  userDatabaseTable : JsValue → JsValue → Option UserDatabaseItem
  transactionsTable : JsValue → Nat → Option TxItem
  s3Objects : String → Option String
  nextSeqNo : JsValue → Nat
  txStatus : JsValue → Nat → Option (TxStatus × TxItem)
  cacheBundleSeqNo : JsValue → Option Int

/-- Observable side effects of the commit and rollback protocols, in the
order the code performs them. -/
inductive Event where
  | ddbPutTransaction (dbId : JsValue) (seqNo : Nat)
  | ddbPutRollback (dbId : JsValue) (seqNo : Nat)
  | markPersisted (dbId : JsValue) (seqNo : Nat)
  | markRolledBack (dbId : JsValue) (seqNo : Nat)
  | notifyPush (dbId : JsValue) (userId : JsValue)
  | logWarn (m : String)
  | logInfo (m : String)
  | rollbackStarted (dbId : JsValue) (seqNo : Nat)
deriving Repr, DecidableEq

/-- The canonical error raised by DynamoDB when a `ConditionExpression`
fails on a `put` or `update`. -/
def condCheckFailedErr : JsError :=
  { name := ("ConditionalCheckFailedException"),
    message := ("The conditional request failed"),
    statusCode := some 400 }

/-- The canonical error raised by DynamoDB when a `transactWrite` is
cancelled because a condition failed; its message carries the reason. -/
def transactCanceledErr : JsError :=
  { name := ("TransactionCanceledException"),
    message := ("Transaction cancelled, please refer cancellation reasons for specific reasons [ConditionalCheckFailed]"),
    statusCode := some 400 }

/-- The error raised by S3 `getObject` when the requested key is absent. -/
def s3NotFoundErr : JsError :=
  { name := ("NotFound"), message := ("Not Found"), statusCode := some 404 }

/-- `getS3DbStateKey` from `db.js`: the S3 key is the template literal
interpolating the database id and the bundle sequence number. -/
def getS3DbStateKey (databaseId bundleSeqNo : JsValue) : String :=
  jsToString databaseId ++ ("/") ++ jsToString bundleSeqNo

/-- Modelled from the spec: `memcache.js` is not under `src/`.  Section 6
`setBundleSeqNo(dbId, seqNo)` records the advanced bundle pointer in the
process-local cache. -/
def setBundleSeqNoCache (s : ServerState) (dbId : JsValue) (n : Int) : ServerState :=
  { s with cacheBundleSeqNo :=
      (fun d => if d = dbId then some n else s.cacheBundleSeqNo d) }

/-- `findDatabaseByDatabaseId` from `db.js`: a point `get` on the
database-by-id table; `none` (absent) is not an error. -/
def findDatabaseByDatabaseId (s : ServerState) (getOracle : Option JsError)
    (dbId : JsValue) : Except JsError (Option DatabaseItem) :=
  match getOracle with
  | some e => Except.error e
  | none => Except.ok (s.databaseTable dbId)

/-- The guarded DynamoDB `update` of `bundleTransactionLog`: sets
`bundle-seq-no` only if the attribute is absent or still less than the new
value.  Returns the updated state and whether the condition passed. -/
def applyBundleUpdate (s : ServerState) (databaseId : JsValue) (n : Int) :
    ServerState × Bool :=
  match s.databaseTable databaseId with
  | some cur =>
    match cur.bundleSeqNo with
    | none =>
      ({ s with databaseTable :=
          (fun d => if d = databaseId then some { cur with bundleSeqNo := some n }
                    else s.databaseTable d) }, true)
    | some l =>
      if l < n then
        ({ s with databaseTable :=
            (fun d => if d = databaseId then some { cur with bundleSeqNo := some n }
                      else s.databaseTable d) }, true)
      else (s, false)
  | none =>
    ({ s with databaseTable :=
        (fun d =>
          if d = databaseId then
            some { databaseId := databaseId, ownerId := JsValue.undef,
                   databaseName := JsValue.undef, metadata := JsValue.undef,
                   bundleSeqNo := some n }
          else s.databaseTable d) }, true)

/-- `bundleTransactionLog` from `db.js`: coerce and validate the sequence
number, look up the database, reject a non-advancing number, upload the
snapshot blob to S3, then advance `bundle-seq-no` under an optimistic
guard.  Oracles inject non-conditional failures of the `get`, the S3
`upload` and the `update`. -/
def bundleTransactionLog (s : ServerState)
    (getOracle uploadOracle updateOracle : Option JsError)
    (databaseId seqNo : JsValue) (bundle : String) : Response × ServerState :=
  match toNumber seqNo with
  | none =>
    (errorResponse (statusCodes ("Bad Request")) ("Missing bundle sequence number"), s)
  | some bundleSeqNo =>
    match findDatabaseByDatabaseId s getOracle databaseId with
    | Except.error e =>
      (errorResponse (statusCodes ("Internal Server Error"))
        (("Failed to bundle with ") ++ errToString e), s)
    | Except.ok none =>
      (errorResponse (statusCodes ("Not Found")) ("Database not found"), s)
    | Except.ok (some database) =>
      if jsGe database.bundleSeqNo bundleSeqNo then
        (errorResponse (statusCodes ("Bad Request"))
          ("Bundle sequence no must be greater than current bundle"), s)
      else
        match uploadOracle with
        | some e =>
          (errorResponse (statusCodes ("Internal Server Error"))
            (("Failed to bundle with ") ++ errToString e), s)
        | none =>
          let s1 := { s with s3Objects :=
            (fun k =>
              if k = getS3DbStateKey databaseId (JsValue.numV bundleSeqNo) then some bundle
              else s.s3Objects k) }
          match updateOracle with
          | some e =>
            (errorResponse (statusCodes ("Internal Server Error"))
              (("Failed to bundle with ") ++ errToString e), s1)
          | none =>
            match applyBundleUpdate s1 databaseId bundleSeqNo with
            | (s2, true) =>
              (successResponse RespBody.emptyObj, setBundleSeqNoCache s2 databaseId bundleSeqNo)
            | (s2, false) =>
              (errorResponse (statusCodes ("Internal Server Error"))
                (("Failed to bundle with ") ++ errToString condCheckFailedErr), s2)

/-- Classification of an S3 `getObject` failure in `getBundle`: not-found
only when the status code is 404 and the message is exactly `Not Found`. -/
def classifyGetErr (e : JsError) : Response :=
  if e.statusCode = some 404 ∧ e.message = ("Not Found") then
    errorResponse (statusCodes ("Not Found"))
      (("Failed to query db state with ") ++ e.message)
  else
    errorResponse (statusCodes ("Internal Server Error"))
      (("Failed to query db state with ") ++ e.message)

/-- `getBundle` from `db.js`: validate the raw `bundleSeqNo` argument by
truthiness (with an explicit exception for `0`), fetch the blob at the
interpolated S3 key, and classify fetch failures. -/
def getBundle (s : ServerState) (fetchOracle : Option JsError)
    (databaseId bundleSeqNo : JsValue) : Response :=
  if truthy bundleSeqNo = false ∧ bundleSeqNo ≠ JsValue.numV 0 then
    errorResponse (statusCodes ("Bad Request")) ("Missing bundle sequence number")
  else
    match fetchOracle with
    | some e => classifyGetErr e
    | none =>
      match s.s3Objects (getS3DbStateKey databaseId bundleSeqNo) with
      | some body => successResponse (RespBody.blob body)
      | none => classifyGetErr s3NotFoundErr

/-- A server state with empty tables, an empty bucket and a fresh
Sequencer; used by concrete witnesses. -/
def emptyState : ServerState :=
  { databaseTable := fun _ => none,
    userDatabaseTable := fun _ _ => none,
    transactionsTable := fun _ _ => none,
    s3Objects := fun _ => none,
    nextSeqNo := fun _ => 0,
    txStatus := fun _ _ => none,
    cacheBundleSeqNo := fun _ => none }

example :
    (bundleTransactionLog emptyState none none none (JsValue.strV ("d1"))
      (JsValue.numV 5) ("snapshotA")).1 =
    Response.error 404 ("Database not found") := by
  decide

def dbId1 : JsValue := JsValue.strV ("d1")

/-- A database item at bundle sequence number 5, for witnesses. -/
def dbItem5 : DatabaseItem :=
  { databaseId := dbId1, ownerId := JsValue.strV ("u1"),
    databaseName := JsValue.strV ("n1"), metadata := JsValue.undef,
    bundleSeqNo := some 5 }

/-- A state holding only `dbItem5`, for witnesses. -/
def stateWithDb5 : ServerState :=
  { emptyState with databaseTable :=
      (fun d => if d = dbId1 then some dbItem5 else none) }

example :
    (bundleTransactionLog stateWithDb5 none none none dbId1
      (JsValue.numV 3) ("b2")).1 =
    Response.error 400 ("Bundle sequence no must be greater than current bundle") := by
  decide

example :
    (bundleTransactionLog stateWithDb5 none none none dbId1
      (JsValue.numV 10) ("snapshotB")).1 =
    Response.success RespBody.emptyObj := by
  decide

example :
    getBundle (bundleTransactionLog stateWithDb5 none none none dbId1
      (JsValue.numV 10) ("snapshotB")).2 none dbId1 (JsValue.numV 10) =
    Response.success (RespBody.blob ("snapshotB")) := by
  decide

lemma statusCodes_badRequest : statusCodes ("Bad Request") = 400 := rfl

lemma statusCodes_notFound : statusCodes ("Not Found") = 404 := rfl

lemma statusCodes_conflict : statusCodes ("Conflict") = 409 := rfl

lemma statusCodes_internal : statusCodes ("Internal Server Error") = 500 := rfl

lemma applyBundleUpdate_s3Objects (s : ServerState) (d : JsValue) (n : Int) :
    ((applyBundleUpdate s d n).1).s3Objects = s.s3Objects := by
  unfold applyBundleUpdate
  cases hdb : s.databaseTable d with
  | none => simp [hdb]
  | some cur =>
    cases hb : cur.bundleSeqNo with
    | none => simp [hdb, hb]
    | some l => by_cases h : l < n <;> simp [hdb, hb, h]

/-- Claim C1: once a database's stored bundle-seq-no has been advanced to
N, a later `bundleTransactionLog` call with a coerced sequence number
M ≤ N leaves the database table and the snapshot store entirely unchanged,
and (when the database lookup itself does not fail) returns the
bad-request gating error. -/
theorem c1_bundle_gate_monotonic (s : ServerState)
    (gO uO upO : Option JsError) (dbId seqArg : JsValue) (b2 : String)
    (db : DatabaseItem) (N M : Int)
    (hdb : s.databaseTable dbId = some db)
    (hN : db.bundleSeqNo = some N)
    (hM : toNumber seqArg = some M)
    (hle : M ≤ N) :
    (∀ d, (bundleTransactionLog s gO uO upO dbId seqArg b2).2.databaseTable d
        = s.databaseTable d) ∧
    (∀ k, (bundleTransactionLog s gO uO upO dbId seqArg b2).2.s3Objects k
        = s.s3Objects k) ∧
    (gO = none →
      (bundleTransactionLog s gO uO upO dbId seqArg b2).1 =
        errorResponse (statusCodes ("Bad Request"))
          ("Bundle sequence no must be greater than current bundle")) := by
  cases gO with
  | some e => simp [bundleTransactionLog, findDatabaseByDatabaseId, hM]
  | none =>
    simp [bundleTransactionLog, findDatabaseByDatabaseId, hM, hdb, hN, jsGe, hle]

/-- Claim C1 witness: with the stored bundle-seq-no at 5, a call with
sequence number 3 is rejected with the gating bad-request error and
changes nothing. -/
theorem c1_bundle_gate_monotonic_witness :
    stateWithDb5.databaseTable dbId1 = some dbItem5 ∧
    dbItem5.bundleSeqNo = some 5 ∧
    toNumber (JsValue.numV 3) = some 3 ∧
    (3 : Int) ≤ 5 ∧
    ((∀ d, (bundleTransactionLog stateWithDb5 none none none dbId1
        (JsValue.numV 3) ("b2")).2.databaseTable d = stateWithDb5.databaseTable d) ∧
     (∀ k, (bundleTransactionLog stateWithDb5 none none none dbId1
        (JsValue.numV 3) ("b2")).2.s3Objects k = stateWithDb5.s3Objects k) ∧
     ((none : Option JsError) = none →
       (bundleTransactionLog stateWithDb5 none none none dbId1
         (JsValue.numV 3) ("b2")).1 =
       errorResponse (statusCodes ("Bad Request"))
         ("Bundle sequence no must be greater than current bundle"))) :=
  ⟨by decide, by decide, by decide, by decide,
   c1_bundle_gate_monotonic stateWithDb5 none none none dbId1 (JsValue.numV 3)
     ("b2") dbItem5 5 3 (by decide) (by decide) (by decide) (by decide)⟩

/-- Claim C7 counterexample: the negative sequence number -1 passes the
initial validation step of `bundleTransactionLog` (the call proceeds to
the database lookup and reports not-found rather than the missing-number
bad-request), refuting the claim that only non-negative numbers pass. -/
theorem c7_negative_passes_validation_cx :
    (bundleTransactionLog emptyState none none none dbId1
      (JsValue.numV (-1)) ("b")).1 = Response.error 404 ("Database not found") ∧
    (bundleTransactionLog emptyState none none none dbId1
      (JsValue.numV (-1)) ("b")).1 ≠
      Response.error 400 ("Missing bundle sequence number") := by
  decide

lemma bundle_validation_passes (s : ServerState)
    (gO uO upO : Option JsError) (dbId seqArg : JsValue) (b : String) (n : Int)
    (hn : toNumber seqArg = some n) :
    (bundleTransactionLog s gO uO upO dbId seqArg b).1 ≠
      errorResponse (statusCodes ("Bad Request")) ("Missing bundle sequence number") := by
  unfold bundleTransactionLog
  rw [hn]
  cases gO with
  | some e =>
    simp [findDatabaseByDatabaseId, errorResponse, statusCodes_internal, statusCodes_badRequest]
  | none =>
    cases hdb : s.databaseTable dbId with
    | none =>
      simp [findDatabaseByDatabaseId, hdb, errorResponse, statusCodes_notFound,
        statusCodes_badRequest]
    | some db =>
      by_cases hge : jsGe db.bundleSeqNo n
      · simp [findDatabaseByDatabaseId, hdb, hge, errorResponse, statusCodes_badRequest]
      · cases uO with
        | some e =>
          simp [findDatabaseByDatabaseId, hdb, hge, errorResponse,
            statusCodes_internal, statusCodes_badRequest]
        | none =>
          cases upO with
          | some e =>
            simp [findDatabaseByDatabaseId, hdb, hge, errorResponse,
              statusCodes_internal, statusCodes_badRequest]
          | none =>
            simp only [findDatabaseByDatabaseId, hdb, hge, if_neg, Bool.not_eq_true]
            rcases hau : applyBundleUpdate
              { s with s3Objects :=
                (fun k =>
                  if k = getS3DbStateKey dbId (JsValue.numV n) then some b
                  else s.s3Objects k) } dbId n with ⟨s2, bb⟩
            cases bb <;>
              simp [hau, hge, successResponse, errorResponse,
                statusCodes_internal, statusCodes_badRequest]

/-- Claim C7 (amended): `bundleTransactionLog` returns the missing-number
bad-request error exactly when `Number(seqNo)` is NaN; every numerically
coercible argument, including negative numbers and values coercing to 0,
passes the initial validation step. -/
theorem c7_validation_is_nan_check (s : ServerState)
    (gO uO upO : Option JsError) (dbId seqArg : JsValue) (b : String) :
    toNumber seqArg = none ↔
      (bundleTransactionLog s gO uO upO dbId seqArg b).1 =
        errorResponse (statusCodes ("Bad Request")) ("Missing bundle sequence number") := by
  constructor
  · intro h
    simp [bundleTransactionLog, h]
  · intro h
    cases hn : toNumber seqArg with
    | none => rfl
    | some n => exact absurd h (bundle_validation_passes s gO uO upO dbId seqArg b n hn)

/-- Claim C7 witness: an absent (`undefined`) sequence number coerces to
NaN and is rejected with the missing-number bad-request error. -/
theorem c7_validation_is_nan_check_witness :
    toNumber JsValue.undef = none ∧
    (bundleTransactionLog emptyState none none none dbId1 JsValue.undef ("b")).1 =
      errorResponse (statusCodes ("Bad Request")) ("Missing bundle sequence number") :=
  ⟨by decide,
   (c7_validation_is_nan_check emptyState none none none dbId1 JsValue.undef ("b")).mp
     (by decide)⟩

lemma getBundle_numV_validation (N : Int) :
    ¬(truthy (JsValue.numV N) = false ∧ JsValue.numV N ≠ JsValue.numV 0) := by
  rintro ⟨h1, h2⟩
  simp [truthy] at h1
  exact h2 (by rw [h1])

/-- Claim C8: whenever `bundleTransactionLog(D, N, B)` succeeds, a
subsequent `getBundle(D, N)` (with a fetch that reaches the blob store)
returns exactly the blob B. -/
theorem c8_getBundle_roundtrip (s : ServerState)
    (gO uO upO : Option JsError) (dbId : JsValue) (N : Int) (B : String)
    (hs : (bundleTransactionLog s gO uO upO dbId (JsValue.numV N) B).1 =
      successResponse RespBody.emptyObj) :
    getBundle (bundleTransactionLog s gO uO upO dbId (JsValue.numV N) B).2
      none dbId (JsValue.numV N) = successResponse (RespBody.blob B) := by
  unfold bundleTransactionLog at hs ⊢
  simp only [toNumber, findDatabaseByDatabaseId] at hs ⊢
  cases gO with
  | some e => simp [successResponse, errorResponse] at hs
  | none =>
    cases hdb : s.databaseTable dbId with
    | none =>
      simp only [hdb] at hs
      simp [successResponse, errorResponse] at hs
    | some db =>
      simp only [hdb] at hs ⊢
      rcases Bool.eq_false_or_eq_true (jsGe db.bundleSeqNo N) with hge | hge
      swap
      · simp only [hge, Bool.false_eq_true, if_false] at hs ⊢
        cases uO with
        | some e => simp [successResponse, errorResponse] at hs
        | none =>
          cases upO with
          | some e => simp [successResponse, errorResponse] at hs
          | none =>
            rcases hau : applyBundleUpdate
              { s with s3Objects :=
                (fun k =>
                  if k = getS3DbStateKey dbId (JsValue.numV N) then some B
                  else s.s3Objects k) } dbId N with ⟨s2, bb⟩
            simp only [hau] at hs ⊢
            cases bb with
            | false => simp [successResponse, errorResponse] at hs
            | true =>
              have hs2 : s2.s3Objects = (fun k =>
                  if k = getS3DbStateKey dbId (JsValue.numV N) then some B
                  else s.s3Objects k) := by
                have h1 := congrArg Prod.fst hau
                have h2 := applyBundleUpdate_s3Objects
                  { s with s3Objects :=
                    (fun k =>
                      if k = getS3DbStateKey dbId (JsValue.numV N) then some B
                      else s.s3Objects k) } dbId N
                rw [h1] at h2
                exact h2
              unfold getBundle
              rw [if_neg (getBundle_numV_validation N)]
              simp only [setBundleSeqNoCache]
              rw [hs2]
              simp
      · simp only [hge, if_true] at hs
        simp [successResponse, errorResponse] at hs

/-- Claim C8 witness: bundling database `d1` at sequence number 10 with
blob `snapshotB` succeeds, and `getBundle` then returns `snapshotB`. -/
theorem c8_getBundle_roundtrip_witness :
    (bundleTransactionLog stateWithDb5 none none none dbId1
      (JsValue.numV 10) ("snapshotB")).1 = successResponse RespBody.emptyObj ∧
    getBundle (bundleTransactionLog stateWithDb5 none none none dbId1
      (JsValue.numV 10) ("snapshotB")).2 none dbId1 (JsValue.numV 10) =
      successResponse (RespBody.blob ("snapshotB")) :=
  ⟨by decide,
   c8_getBundle_roundtrip stateWithDb5 none none none dbId1 10 ("snapshotB")
     (by decide)⟩

/-- Modelled from the spec: `memcache.js` is not under `src/`.  Section 6
`initLog(dbId)` initializes the Sequencer state for a new database (empty
log, counter at zero). -/
def initTransactionLog (s : ServerState) (dbId : JsValue) : ServerState :=
  { s with nextSeqNo := (fun d => if d = dbId then 0 else s.nextSeqNo d) }

/-- Modelled from the spec: `memcache.js` is not under `src/`.  Section 6
`assignNext(transaction) -> transactionWithSeqNo` (called
`pushTransaction` in `db.js`) atomically claims the next sequence number
for the database and marks it `assigned`; no suspension point occurs inside
this step. -/
def pushTransaction (s : ServerState) (tx : TxItem) : TxItem × ServerState :=
  ({ tx with seqNo := s.nextSeqNo tx.databaseId + 1 },
   { s with
      nextSeqNo :=
        (fun d => if d = tx.databaseId then s.nextSeqNo tx.databaseId + 1
                  else s.nextSeqNo d),
      txStatus :=
        (fun d k =>
          if d = tx.databaseId ∧ k = s.nextSeqNo tx.databaseId + 1 then
            some (TxStatus.assigned, { tx with seqNo := s.nextSeqNo tx.databaseId + 1 })
          else s.txStatus d k) })

/-- Modelled from the spec: `memcache.js` is not under `src/`.  Section 6
`markPersisted(transaction)` records the slot as `persisted` with the given
transaction content. -/
def transactionPersistedToDdb (s : ServerState) (tx : TxItem) : ServerState :=
  { s with txStatus :=
      (fun d k =>
        if d = tx.databaseId ∧ k = tx.seqNo then some (TxStatus.persisted, tx)
        else s.txStatus d k) }

/-- Modelled from the spec: `memcache.js` is not under `src/`.  Section 6
`markRolledBack(transaction)` records the slot as `rolled-back` with the
given (rollback-marker) content. -/
def transactionRolledBack (s : ServerState) (tx : TxItem) : ServerState :=
  { s with txStatus :=
      (fun d k =>
        if d = tx.databaseId ∧ k = tx.seqNo then some (TxStatus.rolledBack, tx)
        else s.txStatus d k) }

/-- An unconditional write of `txn` into its (database-id, sequence-no)
slot of the transactions table; the condition expressions guarding it are
checked by the callers. -/
def ddbInsertTransaction (s : ServerState) (txn : TxItem) : ServerState :=
  { s with transactionsTable :=
      (fun d k =>
        if d = txn.databaseId ∧ k = txn.seqNo then some txn
        else s.transactionsTable d k) }

/-- The rollback-marker item built by `rollbackTransaction`: same slot and
`item-id`, command `rollback`, no payload. -/
def rollbackMarker (tx : TxItem) : TxItem :=
  { databaseId := tx.databaseId, seqNo := tx.seqNo, key := JsValue.undef,
    record := JsValue.undef, command := ("rollback"), operations := none,
    itemId := tx.itemId }

/-- The `ConditionExpression` of the rollback put: the write is allowed
only if the slot is empty or the existing record's command is `rollback`. -/
def putGuardRollbackOk (s : ServerState) (d : JsValue) (n : Nat) : Bool :=
  match s.transactionsTable d n with
  | none => true
  | some existing => existing.command == ("rollback")

/-- The reconciliation path of `rollbackTransaction`: the slot already
holds the genuine transaction, so mark it `persisted` with the original
transaction content and log at informational level. -/
def rollbackPersistPath (s : ServerState) (transaction : TxItem) :
    ServerState × List Event :=
  (transactionPersistedToDdb s transaction,
   [Event.markPersisted transaction.databaseId transaction.seqNo,
    Event.logInfo ("Failed to rollback -- transaction already persisted to disk")])

/-- `rollbackTransaction` from `db.js`: attempt a guarded durable write of
a rollback marker into the transaction's slot; on success mark the slot
rolled-back; if the guard fails (the slot holds the genuine transaction)
mark the slot persisted using the original transaction content; any other
failure is logged as a warning and otherwise ignored. -/
def rollbackTransaction (s : ServerState) (rbOracle : Option JsError)
    (transaction : TxItem) : ServerState × List Event :=
  match rbOracle with
  | some e =>
    if e.name == ("ConditionalCheckFailedException") then
      rollbackPersistPath s transaction
    else
      (s, [Event.logWarn (("Failed to rollback with ") ++ errToString e)])
  | none =>
    if putGuardRollbackOk s transaction.databaseId transaction.seqNo then
      (transactionRolledBack
        (ddbInsertTransaction s (rollbackMarker transaction))
        (rollbackMarker transaction),
       [Event.ddbPutRollback transaction.databaseId transaction.seqNo,
        Event.markRolledBack transaction.databaseId transaction.seqNo])
    else rollbackPersistPath s transaction

/-- The catch block of `putTransaction`: log the failure, start the
rollback protocol without awaiting it, and re-raise the original failure.
The rollback's own oracle `rbOracle` never influences the first (returned)
component. -/
def putTransactionFailure (txn : TxItem) (s1 : ServerState)
    (rbOracle : Option JsError) (e : JsError) :
    Except String Nat × ServerState × List Event :=
  (Except.error (("Failed with ") ++ errToString e ++ (".")),
   (rollbackTransaction s1 rbOracle txn).1,
   Event.logWarn (("Transaction ") ++ toString txn.seqNo ++ (" failed with ")
       ++ errToString e ++ ("! Rolling back..."))
     :: Event.rollbackStarted txn.databaseId txn.seqNo
     :: (rollbackTransaction s1 rbOracle txn).2)

/-- The body of `putTransaction` after the Sequencer has assigned the
number: the guarded durable write (condition: slot empty), then
mark-persisted, notifier push and return of the number on success, or the
failure path on any error. -/
def putTransactionGo (txn : TxItem) (s1 : ServerState)
    (putOracle rbOracle : Option JsError) (userId : JsValue) :
    Except String Nat × ServerState × List Event :=
  match putOracle with
  | some e => putTransactionFailure txn s1 rbOracle e
  | none =>
    if (s1.transactionsTable txn.databaseId txn.seqNo).isNone then
      (Except.ok txn.seqNo,
       transactionPersistedToDdb (ddbInsertTransaction s1 txn) txn,
       [Event.ddbPutTransaction txn.databaseId txn.seqNo,
        Event.markPersisted txn.databaseId txn.seqNo,
        Event.notifyPush txn.databaseId userId])
    else putTransactionFailure txn s1 rbOracle condCheckFailedErr

/-- `putTransaction` from `db.js`: assign the next sequence number through
the Sequencer, then run the guarded durable write and its success/failure
protocol. -/
def putTransaction (s : ServerState) (putOracle rbOracle : Option JsError)
    (transaction : TxItem) (userId : JsValue) :
    Except String Nat × ServerState × List Event :=
  putTransactionGo (pushTransaction s transaction).1 (pushTransaction s transaction).2
    putOracle rbOracle userId

/-- `doCommand` from `db.js`: validate databaseId, key and record by
truthiness, build the single-key transaction and run the commit
protocol. -/
def doCommand (s : ServerState) (putOracle rbOracle : Option JsError)
    (command : String) (userId databaseId key record : JsValue) :
    Response × ServerState × List Event :=
  if truthy databaseId = false then
    (errorResponse (statusCodes ("Bad Request")) ("Missing database id"), s, [])
  else if truthy key = false then
    (errorResponse (statusCodes ("Bad Request")) ("Missing item key"), s, [])
  else if truthy record = false then
    (errorResponse (statusCodes ("Bad Request")) ("Missing record"), s, [])
  else
    match putTransaction s putOracle rbOracle
      { databaseId := databaseId, seqNo := 0, key := key, record := record,
        command := command, operations := none, itemId := JsValue.undef } userId with
    | (Except.ok n, s1, ev) => (successResponse (RespBody.seqNum n), s1, ev)
    | (Except.error msg, s1, ev) =>
      (errorResponse (statusCodes ("Internal Server Error"))
        (("Failed to ") ++ command ++ (" with Error: ") ++ msg), s1, ev)

/-- The validation loop of `batch`: each operation must have a truthy
itemKey, encryptedItem and command; the first offending index and field
are reported. -/
def validateOps : List OpInput → Nat → Except (Nat × String) (List BatchOp)
  | [], _ => Except.ok []
  | op :: rest, i =>
    if truthy op.itemKey = false then Except.error (i, ("item key"))
    else if truthy op.encryptedItem = false then Except.error (i, ("record"))
    else if truthy op.command = false then Except.error (i, ("command"))
    else
      match validateOps rest (i + 1) with
      | Except.ok ops =>
        Except.ok ({ key := op.itemKey, record := op.encryptedItem,
                     command := op.command } :: ops)
      | Except.error e => Except.error e

/-- `batch` from `db.js`: validate databaseId and a non-empty operation
list, validate every operation, build one `Batch` transaction holding the
ordered sub-operations and run the commit protocol once. -/
def batch (s : ServerState) (putOracle rbOracle : Option JsError)
    (userId databaseId : JsValue) (operations : Option (List OpInput)) :
    Response × ServerState × List Event :=
  if truthy databaseId = false then
    (errorResponse (statusCodes ("Bad Request")) ("Missing database id"), s, [])
  else
    match operations with
    | none =>
      (errorResponse (statusCodes ("Bad Request")) ("Missing operations"), s, [])
    | some opsList =>
      if opsList.length = 0 then
        (errorResponse (statusCodes ("Bad Request")) ("Missing operations"), s, [])
      else
        match validateOps opsList 0 with
        | Except.error (i, field) =>
          (errorResponse (statusCodes ("Bad Request"))
            (("Operation ") ++ toString i ++ (" missing ") ++ field), s, [])
        | Except.ok ops =>
          match putTransaction s putOracle rbOracle
            { databaseId := databaseId, seqNo := 0, key := JsValue.undef,
              record := JsValue.undef, command := ("Batch"),
              operations := some ops, itemId := JsValue.undef } userId with
          | (Except.ok n, s1, ev) => (successResponse (RespBody.seqNum n), s1, ev)
          | (Except.error msg, s1, ev) =>
            (errorResponse (statusCodes ("Internal Server Error"))
              (("Failed to batch with Error: ") ++ msg), s1, ev)

/-- The atomic two-item `transactWrite` of `createDatabase`: insert the
Database item only if the dbId key is absent and the UserDatabase item
only if the (userId, dbNameHash) alias key is absent — both-or-neither.
A failed condition cancels the whole transaction. -/
def transactWrite (s : ServerState) (txnOracle : Option JsError)
    (dbId userId dbNameHash : JsValue)
    (database : DatabaseItem) (userDatabase : UserDatabaseItem) :
    Except JsError ServerState :=
  match txnOracle with
  | some e => Except.error e
  | none =>
    if (s.databaseTable dbId).isSome ∨ (s.userDatabaseTable userId dbNameHash).isSome then
      Except.error transactCanceledErr
    else
      Except.ok { s with
        databaseTable :=
          (fun d => if d = dbId then some database else s.databaseTable d),
        userDatabaseTable :=
          (fun u h => if u = userId ∧ h = dbNameHash then some userDatabase
                      else s.userDatabaseTable u h) }

/-- `createDatabase` from `db.js`: validate the four required fields by
truthiness, perform the atomic guarded two-item write, initialize the
Sequencer log on success, classify a conditional-check cancellation as
conflict and anything else as internal error. -/
def createDatabase (s : ServerState) (txnOracle : Option JsError)
    (userId dbNameHash dbId encryptedDbName encryptedDbKey encryptedMetadata : JsValue) :
    Response × ServerState :=
  if truthy dbNameHash = false then
    (errorResponse (statusCodes ("Bad Request")) ("Missing database name hash"), s)
  else if truthy dbId = false then
    (errorResponse (statusCodes ("Bad Request")) ("Missing database id"), s)
  else if truthy encryptedDbName = false then
    (errorResponse (statusCodes ("Bad Request")) ("Missing database name"), s)
  else if truthy encryptedDbKey = false then
    (errorResponse (statusCodes ("Bad Request")) ("Missing database key"), s)
  else
    match transactWrite s txnOracle dbId userId dbNameHash
      { databaseId := dbId, ownerId := userId, databaseName := encryptedDbName,
        metadata := encryptedMetadata, bundleSeqNo := none }
      { userId := userId, databaseNameHash := dbNameHash, databaseId := dbId,
        encryptedDbKey := encryptedDbKey } with
    | Except.ok s1 =>
      (successResponse (RespBody.msg ("Success!")), initTransactionLog s1 dbId)
    | Except.error e =>
      if strIncludes e.message ("ConditionalCheckFailed") then
        (errorResponse (statusCodes ("Conflict")) ("Database already exists"), s)
      else
        (errorResponse (statusCodes ("Internal Server Error"))
          (("Failed to create database with ") ++ errToString e), s)

example :
    (doCommand emptyState none none ("Insert") (JsValue.strV ("u1")) dbId1
      (JsValue.strV ("k")) (JsValue.strV ("r1"))).1 =
    Response.success (RespBody.seqNum 1) := by
  decide

example :
    (batch (doCommand emptyState none none ("Insert") (JsValue.strV ("u1")) dbId1
        (JsValue.strV ("k")) (JsValue.strV ("r1"))).2.1 none none
      (JsValue.strV ("u1")) dbId1
      (some [{ itemKey := JsValue.strV ("a"), encryptedItem := JsValue.strV ("x"),
               command := JsValue.strV ("Insert") },
             { itemKey := JsValue.strV ("b"), encryptedItem := JsValue.strV ("y"),
               command := JsValue.strV ("Update") }])).1 =
    Response.success (RespBody.seqNum 2) := by
  decide

example :
    (createDatabase emptyState none (JsValue.strV ("u1")) (JsValue.strV ("h1"))
      dbId1 (JsValue.strV ("n1")) (JsValue.strV ("k1")) JsValue.undef).1 =
    Response.success (RespBody.msg ("Success!")) := by
  decide

lemma notifyPush_not_in_rollback (s : ServerState) (o : Option JsError)
    (t : TxItem) (d2 u2 : JsValue) :
    Event.notifyPush d2 u2 ∉ (rollbackTransaction s o t).2 := by
  cases o with
  | some e =>
    by_cases h : (e.name == ("ConditionalCheckFailedException")) = true <;>
      simp [rollbackTransaction, rollbackPersistPath, h]
  | none =>
    by_cases h : putGuardRollbackOk s t.databaseId t.seqNo = true <;>
      simp [rollbackTransaction, rollbackPersistPath, h]

/-- Claim C2: when the guarded durable write succeeds, the commit path
returns the assigned number with the event trace "durable write, then
mark-persisted, then notifier push" in exactly that order; and in every
execution, a notifier push occurs only in that successful trace, i.e.
never before the durable write is confirmed. -/
theorem c2_commit_success_order (s : ServerState) (rb : Option JsError)
    (tx : TxItem) (u : JsValue) :
    (s.transactionsTable tx.databaseId (s.nextSeqNo tx.databaseId + 1) = none →
      (putTransaction s none rb tx u).1 =
        Except.ok (s.nextSeqNo tx.databaseId + 1) ∧
      (putTransaction s none rb tx u).2.2 =
        [Event.ddbPutTransaction tx.databaseId (s.nextSeqNo tx.databaseId + 1),
         Event.markPersisted tx.databaseId (s.nextSeqNo tx.databaseId + 1),
         Event.notifyPush tx.databaseId u]) ∧
    (∀ po d2 u2, Event.notifyPush d2 u2 ∈ (putTransaction s po rb tx u).2.2 →
      (putTransaction s po rb tx u).2.2 =
        [Event.ddbPutTransaction tx.databaseId (s.nextSeqNo tx.databaseId + 1),
         Event.markPersisted tx.databaseId (s.nextSeqNo tx.databaseId + 1),
         Event.notifyPush tx.databaseId u]) := by
  constructor
  · intro hempty
    simp [putTransaction, putTransactionGo, pushTransaction, hempty]
  · intro po d2 u2 hm
    cases po with
    | some e =>
      exfalso
      simp [putTransaction, putTransactionGo, pushTransaction,
        putTransactionFailure] at hm
      exact notifyPush_not_in_rollback _ rb _ d2 u2 hm
    | none =>
      by_cases hempty :
          s.transactionsTable tx.databaseId (s.nextSeqNo tx.databaseId + 1) = none
      · simp [putTransaction, putTransactionGo, pushTransaction, hempty]
      · exfalso
        simp [putTransaction, putTransactionGo, pushTransaction,
          putTransactionFailure, hempty] at hm
        exact notifyPush_not_in_rollback _ rb _ d2 u2 hm

/-- A single-key transaction used by concrete witnesses. -/
def genuineTx1 : TxItem :=
  { databaseId := dbId1, seqNo := 1, key := JsValue.strV ("k"),
    record := JsValue.strV ("r1"), command := ("Insert"), operations := none,
    itemId := JsValue.undef }

/-- Claim C2 witness: committing into an empty log returns sequence number
1 with the durable-write, mark-persisted, notifier-push trace. -/
theorem c2_commit_success_order_witness :
    emptyState.transactionsTable dbId1 1 = none ∧
    ((putTransaction emptyState none none genuineTx1 (JsValue.strV ("u1"))).1 =
        Except.ok 1 ∧
     (putTransaction emptyState none none genuineTx1 (JsValue.strV ("u1"))).2.2 =
        [Event.ddbPutTransaction dbId1 1, Event.markPersisted dbId1 1,
         Event.notifyPush dbId1 (JsValue.strV ("u1"))]) :=
  ⟨rfl,
   (c2_commit_success_order emptyState none genuineTx1 (JsValue.strV ("u1"))).1 rfl⟩

/-- Claim C3: the rollback protocol writes the rollback marker (and marks
the slot rolled-back) only when the slot is empty or already holds a
rollback marker; when the guard fails because the slot holds the genuine
transaction, it marks the slot persisted using the original transaction
content and writes nothing; and no slot holding a genuine (non-rollback)
record is ever overwritten. -/
theorem c3_rollback_never_overwrites (s : ServerState) (o : Option JsError)
    (tx : TxItem) :
    (o = none → putGuardRollbackOk s tx.databaseId tx.seqNo = true →
      (rollbackTransaction s o tx).1.transactionsTable tx.databaseId tx.seqNo =
        some (rollbackMarker tx) ∧
      (rollbackTransaction s o tx).1.txStatus tx.databaseId tx.seqNo =
        some (TxStatus.rolledBack, rollbackMarker tx)) ∧
    (∀ t, o = none → s.transactionsTable tx.databaseId tx.seqNo = some t →
      t.command ≠ ("rollback") →
      (∀ d k, (rollbackTransaction s o tx).1.transactionsTable d k =
        s.transactionsTable d k) ∧
      (rollbackTransaction s o tx).1.txStatus tx.databaseId tx.seqNo =
        some (TxStatus.persisted, tx)) ∧
    (∀ d k t, s.transactionsTable d k = some t → t.command ≠ ("rollback") →
      (rollbackTransaction s o tx).1.transactionsTable d k = some t) := by
  refine ⟨?_, ?_, ?_⟩
  · rintro rfl hguard
    simp [rollbackTransaction, hguard, transactionRolledBack,
      ddbInsertTransaction, rollbackMarker]
  · rintro t rfl hslot hcmd
    have hguard : putGuardRollbackOk s tx.databaseId tx.seqNo = false := by
      simp [putGuardRollbackOk, hslot, hcmd]
    simp [rollbackTransaction, hguard, rollbackPersistPath,
      transactionPersistedToDdb]
  · intro d k t hslot hcmd
    cases o with
    | some e =>
      by_cases h : (e.name == ("ConditionalCheckFailedException")) = true <;>
        simp [rollbackTransaction, rollbackPersistPath,
          transactionPersistedToDdb, h, hslot]
    | none =>
      by_cases hguard : putGuardRollbackOk s tx.databaseId tx.seqNo = true
      · by_cases hdk : d = tx.databaseId ∧ k = tx.seqNo
        · exfalso
          obtain ⟨hd, hk⟩ := hdk
          subst hd; subst hk
          rw [putGuardRollbackOk, hslot] at hguard
          simp at hguard
          exact hcmd hguard
        · simp [rollbackTransaction, hguard, transactionRolledBack,
            ddbInsertTransaction, rollbackMarker, hdk, hslot]
      · simp [rollbackTransaction, hguard, rollbackPersistPath,
          transactionPersistedToDdb, hslot]

/-- A state whose slot (d1, 1) holds the genuine transaction, for
witnesses of the reconciliation path. -/
def stateWithTx1 : ServerState :=
  { emptyState with transactionsTable :=
      (fun d k => if d = dbId1 ∧ k = 1 then some genuineTx1 else none) }

/-- Claim C3 witness: rolling back over an empty slot writes the marker
and marks rolled-back; rolling back over the genuine transaction leaves
the slot intact and marks it persisted with the original content. -/
theorem c3_rollback_never_overwrites_witness :
    ((rollbackTransaction emptyState none genuineTx1).1.transactionsTable dbId1 1 =
      some (rollbackMarker genuineTx1)) ∧
    ((rollbackTransaction stateWithTx1 none genuineTx1).1.transactionsTable dbId1 1 =
      some genuineTx1) ∧
    ((rollbackTransaction stateWithTx1 none genuineTx1).1.txStatus dbId1 1 =
      some (TxStatus.persisted, genuineTx1)) := by
  refine ⟨((c3_rollback_never_overwrites emptyState none genuineTx1).1 rfl
    (by decide)).1, ?_, ?_⟩
  · exact (c3_rollback_never_overwrites stateWithTx1 none genuineTx1).2.2 dbId1 1
      genuineTx1 (by decide) (by decide)
  · exact ((c3_rollback_never_overwrites stateWithTx1 none genuineTx1).2.1
      genuineTx1 rfl (by decide) (by decide)).2

/-- Claim C4: when the durable write of a commit fails, the caller sees the
internal-error commit failure carrying the original error, the trace shows
the failure being logged and the rollback being started, and the rollback
oracle (its success or failure) never changes the caller-visible result;
the same holds for the batch entry point. -/
theorem c4_commit_failure_surfaced (s : ServerState) (rb rb2 : Option JsError)
    (e : JsError) (c : String) (u dbId key record : JsValue)
    (h1 : truthy dbId = true) (h2 : truthy key = true) (h3 : truthy record = true) :
    ((doCommand s (some e) rb c u dbId key record).1 =
      errorResponse (statusCodes ("Internal Server Error"))
        (("Failed to ") ++ c ++ (" with Error: ") ++
          (("Failed with ") ++ errToString e ++ (".")))) ∧
    (∃ evR, (doCommand s (some e) rb c u dbId key record).2.2 =
      Event.logWarn (("Transaction ") ++ toString (s.nextSeqNo dbId + 1) ++
          (" failed with ") ++ errToString e ++ ("! Rolling back..."))
        :: Event.rollbackStarted dbId (s.nextSeqNo dbId + 1) :: evR) ∧
    ((doCommand s (some e) rb c u dbId key record).1 =
      (doCommand s (some e) rb2 c u dbId key record).1) ∧
    (∀ opsList ops, opsList.length ≠ 0 → validateOps opsList 0 = Except.ok ops →
      (batch s (some e) rb u dbId (some opsList)).1 =
        errorResponse (statusCodes ("Internal Server Error"))
          (("Failed to batch with Error: ") ++
            (("Failed with ") ++ errToString e ++ ("."))) ∧
      (batch s (some e) rb u dbId (some opsList)).1 =
        (batch s (some e) rb2 u dbId (some opsList)).1) := by
  refine ⟨?_, ?_, ?_, ?_⟩
  · simp [doCommand, h1, h2, h3, putTransaction, putTransactionGo,
      pushTransaction, putTransactionFailure, errorResponse]
  · refine ⟨(rollbackTransaction (pushTransaction s
      { databaseId := dbId, seqNo := 0, key := key, record := record,
        command := c, operations := none, itemId := JsValue.undef }).2 rb
      (pushTransaction s
      { databaseId := dbId, seqNo := 0, key := key, record := record,
        command := c, operations := none, itemId := JsValue.undef }).1).2, ?_⟩
    simp [doCommand, h1, h2, h3, putTransaction, putTransactionGo,
      pushTransaction, putTransactionFailure]
  · simp [doCommand, h1, h2, h3, putTransaction, putTransactionGo,
      pushTransaction, putTransactionFailure]
  · intro opsList ops hl hv
    constructor
    · simp [batch, h1, hl, hv, putTransaction, putTransactionGo,
        pushTransaction, putTransactionFailure, errorResponse]
    · simp [batch, h1, hl, hv, putTransaction, putTransactionGo,
        pushTransaction, putTransactionFailure]

/-- The arbitrary durable-store failure used by witnesses. -/
def ioErr : JsError :=
  { name := ("InternalServerError"), message := ("Service Unavailable"),
    statusCode := some 503 }

/-- Claim C4 witness: a failed durable write surfaces as an internal-error
commit failure with the rollback started in the trace, for both entry
points, independently of the rollback outcome. -/
theorem c4_commit_failure_surfaced_witness :
    truthy dbId1 = true ∧
    ((doCommand emptyState (some ioErr) none ("Insert") (JsValue.strV ("u1"))
        dbId1 (JsValue.strV ("k")) (JsValue.strV ("r1"))).1 =
      errorResponse (statusCodes ("Internal Server Error"))
        (("Failed to ") ++ ("Insert") ++ (" with Error: ") ++
          (("Failed with ") ++ errToString ioErr ++ (".")))) ∧
    ((doCommand emptyState (some ioErr) none ("Insert") (JsValue.strV ("u1"))
        dbId1 (JsValue.strV ("k")) (JsValue.strV ("r1"))).1 =
      (doCommand emptyState (some ioErr) (some ioErr) ("Insert") (JsValue.strV ("u1"))
        dbId1 (JsValue.strV ("k")) (JsValue.strV ("r1"))).1) := by
  have h := c4_commit_failure_surfaced emptyState none (some ioErr) ioErr
    ("Insert") (JsValue.strV ("u1")) dbId1 (JsValue.strV ("k"))
    (JsValue.strV ("r1")) (by decide) (by decide) (by decide)
  exact ⟨by decide, h.1, h.2.2.1⟩

lemma validateOps_prefix_valid (pre tail : List OpInput) (i : Nat) (f : String)
    (hpre : ∀ p ∈ pre, truthy p.itemKey = true ∧ truthy p.encryptedItem = true ∧
      truthy p.command = true)
    (herr : ∀ j, validateOps tail j = Except.error (j, f)) :
    validateOps (pre ++ tail) i = Except.error (i + pre.length, f) := by
  induction pre generalizing i with
  | nil => simpa using herr i
  | cons p pre2 ih =>
    obtain ⟨hk, he, hc⟩ := hpre p (List.mem_cons_self p pre2)
    have hrest : ∀ q ∈ pre2, truthy q.itemKey = true ∧
        truthy q.encryptedItem = true ∧ truthy q.command = true :=
      fun q hq => hpre q (List.mem_cons_of_mem p hq)
    have harith : (i + 1) + pre2.length = i + (pre2.length + 1) := by omega
    simp [validateOps, hk, he, hc, ih (i + 1) hrest, harith]

/-- Claim C9: the entry points test required fields by JavaScript
truthiness, so a supplied-but-falsy databaseId, key or record (and, for a
batch operation, itemKey, encryptedItem or command) produces the
corresponding bad-request missing-field error, with no state change and no
events (no sequence number is assigned and nothing is written). -/
theorem c9_truthiness_validation (s : ServerState) (po rb : Option JsError)
    (c : String) (u dbId key record : JsValue)
    (pre : List OpInput) (op : OpInput) (rest : List OpInput) :
    (truthy dbId = false →
      doCommand s po rb c u dbId key record =
        (errorResponse (statusCodes ("Bad Request")) ("Missing database id"), s, [])) ∧
    (truthy dbId = true → truthy key = false →
      doCommand s po rb c u dbId key record =
        (errorResponse (statusCodes ("Bad Request")) ("Missing item key"), s, [])) ∧
    (truthy dbId = true → truthy key = true → truthy record = false →
      doCommand s po rb c u dbId key record =
        (errorResponse (statusCodes ("Bad Request")) ("Missing record"), s, [])) ∧
    (truthy dbId = true →
      (∀ p ∈ pre, truthy p.itemKey = true ∧ truthy p.encryptedItem = true ∧
        truthy p.command = true) →
      ((truthy op.itemKey = false →
        batch s po rb u dbId (some (pre ++ op :: rest)) =
          (errorResponse (statusCodes ("Bad Request"))
            (("Operation ") ++ toString pre.length ++ (" missing ") ++ ("item key")),
           s, [])) ∧
       (truthy op.itemKey = true → truthy op.encryptedItem = false →
        batch s po rb u dbId (some (pre ++ op :: rest)) =
          (errorResponse (statusCodes ("Bad Request"))
            (("Operation ") ++ toString pre.length ++ (" missing ") ++ ("record")),
           s, [])) ∧
       (truthy op.itemKey = true → truthy op.encryptedItem = true →
        truthy op.command = false →
        batch s po rb u dbId (some (pre ++ op :: rest)) =
          (errorResponse (statusCodes ("Bad Request"))
            (("Operation ") ++ toString pre.length ++ (" missing ") ++ ("command")),
           s, [])))) := by
  refine ⟨?_, ?_, ?_, ?_⟩
  · intro h; simp [doCommand, h]
  · intro h1 h2; simp [doCommand, h1, h2]
  · intro h1 h2 h3; simp [doCommand, h1, h2, h3]
  · intro h1 hpre
    have hlen : (pre ++ op :: rest).length ≠ 0 := by simp
    refine ⟨?_, ?_, ?_⟩
    · intro hk
      have herr : ∀ j, validateOps (op :: rest) j = Except.error (j, ("item key")) := by
        intro j; simp [validateOps, hk]
      have := validateOps_prefix_valid pre (op :: rest) 0 ("item key") hpre herr
      simp [batch, h1, hlen, this]
    · intro hk he
      have herr : ∀ j, validateOps (op :: rest) j = Except.error (j, ("record")) := by
        intro j; simp [validateOps, hk, he]
      have := validateOps_prefix_valid pre (op :: rest) 0 ("record") hpre herr
      simp [batch, h1, hlen, this]
    · intro hk he hc
      have herr : ∀ j, validateOps (op :: rest) j = Except.error (j, ("command")) := by
        intro j; simp [validateOps, hk, he, hc]
      have := validateOps_prefix_valid pre (op :: rest) 0 ("command") hpre herr
      simp [batch, h1, hlen, this]

/-- A batch operation whose encryptedItem is the falsy number 0, for the
claim C9 witness. -/
def falsyRecordOp : OpInput :=
  { itemKey := JsValue.strV ("a"), encryptedItem := JsValue.numV 0,
    command := JsValue.strV ("Insert") }

/-- Claim C9 witness: an empty-string databaseId, and a batch operation
whose encryptedItem is the number 0, are rejected as missing even though
the fields were supplied. -/
theorem c9_truthiness_validation_witness :
    truthy (JsValue.strV ("")) = false ∧
    (doCommand emptyState none none ("Insert") (JsValue.strV ("u1"))
      (JsValue.strV ("")) (JsValue.strV ("k")) (JsValue.strV ("r1")) =
      (errorResponse (statusCodes ("Bad Request")) ("Missing database id"),
       emptyState, [])) ∧
    truthy (JsValue.numV 0) = false ∧
    (batch emptyState none none (JsValue.strV ("u1")) dbId1
      (some ([] ++ falsyRecordOp :: [])) =
      (errorResponse (statusCodes ("Bad Request"))
        (("Operation ") ++ toString (List.length ([] : List OpInput)) ++
          (" missing ") ++ ("record")),
       emptyState, [])) := by
  refine ⟨by decide, ?_, by decide, ?_⟩
  · exact (c9_truthiness_validation emptyState none none ("Insert")
      (JsValue.strV ("u1")) (JsValue.strV ("")) (JsValue.strV ("k"))
      (JsValue.strV ("r1")) [] falsyRecordOp []).1 (by decide)
  · exact (((c9_truthiness_validation emptyState none none ("Insert")
      (JsValue.strV ("u1")) dbId1 (JsValue.strV ("k"))
      (JsValue.strV ("r1")) [] falsyRecordOp []).2.2.2 (by decide)
      (by simp)).2.1 (by decide) (by decide))

/-- Claim C6: `createDatabase` applies the two guarded inserts
both-or-neither (either both tables are unchanged at every key, or the
Database and UserDatabase records are both present); with an existing
dbId and a write that reaches the store, it fails with the conflict error
and leaves both tables unchanged; and any other durable-store failure
surfaces as an internal error. -/
theorem c6_createDatabase_atomic (s : ServerState) (tO : Option JsError)
    (u nh dbId nm kv meta : JsValue)
    (h1 : truthy nh = true) (h2 : truthy dbId = true)
    (h3 : truthy nm = true) (h4 : truthy kv = true) :
    (((∀ d, (createDatabase s tO u nh dbId nm kv meta).2.databaseTable d =
        s.databaseTable d) ∧
      (∀ a b, (createDatabase s tO u nh dbId nm kv meta).2.userDatabaseTable a b =
        s.userDatabaseTable a b)) ∨
     ((createDatabase s tO u nh dbId nm kv meta).2.databaseTable dbId =
        some { databaseId := dbId, ownerId := u, databaseName := nm,
               metadata := meta, bundleSeqNo := none } ∧
      (createDatabase s tO u nh dbId nm kv meta).2.userDatabaseTable u nh =
        some { userId := u, databaseNameHash := nh, databaseId := dbId,
               encryptedDbKey := kv })) ∧
    (∀ prior, s.databaseTable dbId = some prior → tO = none →
      (createDatabase s tO u nh dbId nm kv meta).1 =
        errorResponse (statusCodes ("Conflict")) ("Database already exists") ∧
      (∀ d, (createDatabase s tO u nh dbId nm kv meta).2.databaseTable d =
        s.databaseTable d) ∧
      (∀ a b, (createDatabase s tO u nh dbId nm kv meta).2.userDatabaseTable a b =
        s.userDatabaseTable a b)) ∧
    (∀ e, tO = some e → strIncludes e.message ("ConditionalCheckFailed") = false →
      (createDatabase s tO u nh dbId nm kv meta).1 =
        errorResponse (statusCodes ("Internal Server Error"))
          (("Failed to create database with ") ++ errToString e)) := by
  refine ⟨?_, ?_, ?_⟩
  · cases tO with
    | some e =>
      left
      by_cases h : strIncludes e.message ("ConditionalCheckFailed") = true <;>
        simp [createDatabase, h1, h2, h3, h4, transactWrite, h]
    | none =>
      by_cases hg : (s.databaseTable dbId).isSome ∨
        (s.userDatabaseTable u nh).isSome
      · left
        have hcc : strIncludes transactCanceledErr.message
            ("ConditionalCheckFailed") = true := by decide
        simp [createDatabase, h1, h2, h3, h4, transactWrite, hg, hcc]
      · right
        simp [createDatabase, h1, h2, h3, h4, transactWrite, hg,
          initTransactionLog]
  · intro prior hprior htO
    subst htO
    have hg : (s.databaseTable dbId).isSome ∨
        (s.userDatabaseTable u nh).isSome := by
      left; simp [hprior]
    have hcc : strIncludes transactCanceledErr.message
        ("ConditionalCheckFailed") = true := by decide
    simp [createDatabase, h1, h2, h3, h4, transactWrite, hg, hcc]
  · intro e htO hni
    subst htO
    simp [createDatabase, h1, h2, h3, h4, transactWrite, hni]

/-- Claim C6 witness: creating a database whose dbId already exists fails
with the conflict error and leaves both identity tables unchanged, and an
unrelated store failure yields an internal error. -/
theorem c6_createDatabase_atomic_witness :
    truthy (JsValue.strV ("h2")) = true ∧
    stateWithDb5.databaseTable dbId1 = some dbItem5 ∧
    ((createDatabase stateWithDb5 none (JsValue.strV ("u2")) (JsValue.strV ("h2"))
        dbId1 (JsValue.strV ("n2")) (JsValue.strV ("k2")) JsValue.undef).1 =
      errorResponse (statusCodes ("Conflict")) ("Database already exists")) ∧
    (∀ d, (createDatabase stateWithDb5 none (JsValue.strV ("u2")) (JsValue.strV ("h2"))
        dbId1 (JsValue.strV ("n2")) (JsValue.strV ("k2")) JsValue.undef).2.databaseTable d =
      stateWithDb5.databaseTable d) ∧
    ((createDatabase stateWithDb5 (some ioErr) (JsValue.strV ("u2")) (JsValue.strV ("h2"))
        dbId1 (JsValue.strV ("n2")) (JsValue.strV ("k2")) JsValue.undef).1 =
      errorResponse (statusCodes ("Internal Server Error"))
        (("Failed to create database with ") ++ errToString ioErr)) := by
  have hc := (c6_createDatabase_atomic stateWithDb5 none (JsValue.strV ("u2"))
    (JsValue.strV ("h2")) dbId1 (JsValue.strV ("n2")) (JsValue.strV ("k2"))
    JsValue.undef (by decide) (by decide) (by decide) (by decide)).2.1 dbItem5
    (by decide) rfl
  have he := (c6_createDatabase_atomic stateWithDb5 (some ioErr) (JsValue.strV ("u2"))
    (JsValue.strV ("h2")) dbId1 (JsValue.strV ("n2")) (JsValue.strV ("k2"))
    JsValue.undef (by decide) (by decide) (by decide) (by decide)).2.2 ioErr rfl
    (by decide)
  exact ⟨by decide, by decide, hc.1, hc.2.1, he⟩

/-- Claim C10: a fetch failure in `getBundle` is classified as not-found
exactly when it carries status code 404 and the message text `Not Found`;
every other failure, including a 404 with a different message, is returned
as an internal error. -/
theorem c10_getBundle_error_classification (s : ServerState) (e : JsError)
    (dbId seqArg : JsValue)
    (hv : truthy seqArg = true ∨ seqArg = JsValue.numV 0) :
    (e.statusCode = some 404 ∧ e.message = ("Not Found") →
      getBundle s (some e) dbId seqArg =
        errorResponse (statusCodes ("Not Found"))
          (("Failed to query db state with ") ++ e.message)) ∧
    (¬(e.statusCode = some 404 ∧ e.message = ("Not Found")) →
      getBundle s (some e) dbId seqArg =
        errorResponse (statusCodes ("Internal Server Error"))
          (("Failed to query db state with ") ++ e.message)) := by
  have hval : ¬(truthy seqArg = false ∧ seqArg ≠ JsValue.numV 0) := by
    rcases hv with h | h
    · rintro ⟨h1, _⟩; rw [h] at h1; cases h1
    · rintro ⟨_, h2⟩; exact h2 h
  constructor
  · intro h
    simp [getBundle, hval, classifyGetErr, h]
  · intro h
    simp [getBundle, hval, classifyGetErr, h]

/-- A 404 fetch failure whose message is not exactly `Not Found`, for the
claim C10 witness. -/
def oddNotFoundErr : JsError :=
  { name := ("NotFound"), message := ("NotFound"), statusCode := some 404 }

/-- Claim C10 witness: the canonical 404 `Not Found` failure maps to the
not-found response; a 404 whose message differs maps to an internal
error. -/
theorem c10_getBundle_error_classification_witness :
    (getBundle emptyState (some s3NotFoundErr) dbId1 (JsValue.numV 5) =
      errorResponse (statusCodes ("Not Found"))
        (("Failed to query db state with ") ++ s3NotFoundErr.message)) ∧
    (getBundle emptyState (some oddNotFoundErr) dbId1 (JsValue.numV 5) =
      errorResponse (statusCodes ("Internal Server Error"))
        (("Failed to query db state with ") ++ oddNotFoundErr.message)) :=
  ⟨(c10_getBundle_error_classification emptyState s3NotFoundErr dbId1
      (JsValue.numV 5) (Or.inl (by decide))).1 (by decide),
   (c10_getBundle_error_classification emptyState oddNotFoundErr dbId1
      (JsValue.numV 5) (Or.inl (by decide))).2 (by decide)⟩

/-- Modelled from the spec: `memcache.js` (the Sequencer) is not under
`src/`.  Section 5 concurrency model for one database: the per-database
counter plus, for each in-flight commit (identified by an index), the
sequence number it has claimed, if any. -/
structure SeqState where
  counter : Nat
  assigned : Nat → Option Nat

/-- One scheduler choice under cooperative concurrency: run commit `i`'s
assignment step (`pushTransaction`, which contains no suspension point and
therefore executes atomically), or run some durable-I/O step, which never
touches the Sequencer counter. -/
inductive SchedStep where
  | assignStep (i : Nat)
  | ioStep

/-- Modelled from the spec: one atomic step of the section 5 interleaving
semantics.  An assignment step claims `counter + 1` for commit `i` (at most
once per commit); an I/O step leaves the Sequencer untouched. -/
def seqStep (st : SeqState) : SchedStep → SeqState
  | SchedStep.assignStep i =>
    match st.assigned i with
    | some _ => st
    | none =>
      { counter := st.counter + 1,
        assigned := (fun j => if j = i then some (st.counter + 1) else st.assigned j) }
  | SchedStep.ioStep => st

/-- Run of a schedule, one atomic step at a time. -/
def runSched (st : SeqState) : List SchedStep → SeqState
  | [] => st
  | c :: cs => runSched (seqStep st c) cs

/-- The Sequencer state at database creation: counter at the initial value
`c0`, no commit has claimed a number yet. -/
def initSeqState (c0 : Nat) : SeqState :=
  { counter := c0, assigned := (fun _ => none) }

/-- The concurrency invariant of claim C5: every claimed number lies in
the half-open range above the creation-time value `c0` and up to the
current counter, no two commits have claimed the same number, and every
number of that range is claimed — i.e. the claimed numbers are pairwise
distinct and form the contiguous range starting at `c0 + 1`. -/
def SeqInv (c0 : Nat) (st : SeqState) : Prop :=
  c0 ≤ st.counter ∧
  (∀ i v, st.assigned i = some v → c0 < v ∧ v ≤ st.counter) ∧
  (∀ i j v, st.assigned i = some v → st.assigned j = some v → i = j) ∧
  (∀ v, c0 < v → v ≤ st.counter → ∃ i, st.assigned i = some v)

lemma seqStep_preserves (c0 : Nat) (st : SeqState) (c : SchedStep)
    (h : SeqInv c0 st) : SeqInv c0 (seqStep st c) := by
  obtain ⟨hc, hbound, hinj, hsurj⟩ := h
  cases c with
  | ioStep => exact ⟨hc, hbound, hinj, hsurj⟩
  | assignStep i =>
    cases ha : st.assigned i with
    | some v => simpa [seqStep, ha] using ⟨hc, hbound, hinj, hsurj⟩
    | none =>
      simp only [seqStep, ha]
      refine ⟨?_, ?_, ?_, ?_⟩ <;> dsimp only
      · omega
      · intro j v hv
        by_cases hj : j = i
        · subst hj
          simp at hv
          omega
        · simp [hj] at hv
          have := hbound j v hv
          omega
      · intro j k v hjv hkv
        by_cases hj : j = i <;> by_cases hk : k = i
        · rw [hj, hk]
        · subst hj
          simp at hjv
          simp [hk] at hkv
          have := hbound k v hkv
          omega
        · subst hk
          simp at hkv
          simp [hj] at hjv
          have := hbound j v hjv
          omega
        · simp [hj] at hjv
          simp [hk] at hkv
          exact hinj j k v hjv hkv
      · intro v hlo hhi
        by_cases hv : v = st.counter + 1
        · exact ⟨i, by simp [hv]⟩
        · have hle : v ≤ st.counter := by omega
          obtain ⟨j, hj⟩ := hsurj v hlo hle
          have hji : j ≠ i := by
            intro hji
            rw [hji, ha] at hj
            cases hj
          exact ⟨j, by simp [hji, hj]⟩

lemma runSched_preserves (c0 : Nat) (st : SeqState) (sched : List SchedStep)
    (h : SeqInv c0 st) : SeqInv c0 (runSched st sched) := by
  induction sched generalizing st with
  | nil => exact h
  | cons c cs ih => exact ih (seqStep st c) (seqStep_preserves c0 st c h)

/-- Claim C5: under any cooperative interleaving of commit calls against
one database, the sequence numbers claimed are pairwise distinct and form
a contiguous range starting just above the counter value in effect when
the database was created — because the assignment step is a single atomic
step with no suspension point. -/
theorem c5_assignment_distinct_contiguous (c0 : Nat) (sched : List SchedStep) :
    SeqInv c0 (runSched (initSeqState c0) sched) := by
  refine runSched_preserves c0 (initSeqState c0) sched ?_
  refine ⟨Nat.le_refl c0, ?_, ?_, ?_⟩
  · intro i v hv
    cases hv
  · intro i j v hi hj
    cases hi
  · intro v hlo hhi
    dsimp only [initSeqState] at hhi
    omega

/-- Claim C5 witness: two commits interleaved with I/O steps claim the
distinct contiguous numbers 1 and 2. -/
theorem c5_assignment_distinct_contiguous_witness :
    SeqInv 0 (runSched (initSeqState 0)
      [SchedStep.assignStep 0, SchedStep.ioStep, SchedStep.assignStep 1,
       SchedStep.ioStep, SchedStep.ioStep]) :=
  c5_assignment_distinct_contiguous 0
    [SchedStep.assignStep 0, SchedStep.ioStep, SchedStep.assignStep 1,
     SchedStep.ioStep, SchedStep.ioStep]
